import Mathlib

/-!
Verification of the ZGC page-cache balancer (`zPageCacheBalance.cpp`).

The sizing solver is pure arithmetic over `size_t` page counts and
`double` allocation rates.  `size_t` values are modelled as `Nat` (all
quantities are counts and byte sizes; the code's own assertions rule out
the subtractions that could underflow, and we prove those assertions
hold on every solver path).  `double` arithmetic is modelled exactly
over `ℚ`: the C cast `(size_t)q` of a non-negative value truncates
toward zero, which is `Nat.floor`.
-/

/-- Page type tag. Modelled from the spec: size classes Small | Medium | Large,
`ZPageTypeSmall`/`ZPageTypeMedium` are distinct `uint8_t` constants declared
outside this file. -/
def ZPageTypeSmall : Nat := 0

/-- Page type tag for medium pages, see `ZPageTypeSmall`. -/
def ZPageTypeMedium : Nat := 1

/-- The balancer's per-invocation inputs: the tunables and collaborator
snapshots it reads (`ZPageSizeSmall`, `ZPageSizeMedium`,
`ZHeap::heap()->capacity()`, `ZMinPageCachePercent`,
`ZStatSmallPageAllocRate::avg()`, `ZStatMediumPageAllocRate::avg()`), the
constructor arguments, and the cache counts sampled by
`initialize_page_count`. -/
structure ZPageCacheBalance where
  ZPageSizeSmall : Nat
  ZPageSizeMedium : Nat
  capacity : Nat
  ZMinPageCachePercent : Nat
  small_rate : ℚ
  medium_rate : ℚ
  before_relocation : Bool
  small_selected_to : Nat
  medium_selected_to : Nat
  available_small : Nat
  available_medium : Nat
deriving DecidableEq

/-- Source: `ZPageSizeSmall * small_count + ZPageSizeMedium * medium_count`. -/
def ZPageCacheBalance.calculate_total_size (b : ZPageCacheBalance)
    (small_count medium_count : Nat) : Nat :=
  b.ZPageSizeSmall * small_count + b.ZPageSizeMedium * medium_count

/-- Source: `calculate_total_size(_available_small, _available_medium)`. -/
def ZPageCacheBalance.available_page_cache_size (b : ZPageCacheBalance) : Nat :=
  b.calculate_total_size b.available_small b.available_medium

/-- The assertion guarding `calculate_maximal_small_for_medium`:
`available_page_cache_size() > medium * ZPageSizeMedium`. -/
def ZPageCacheBalance.maximal_small_for_medium_assert (b : ZPageCacheBalance)
    (medium : Nat) : Prop :=
  b.available_page_cache_size > medium * b.ZPageSizeMedium

/-- The assertion guarding `calculate_maximal_medium_for_small`:
`available_page_cache_size() > small * ZPageSizeSmall`. -/
def ZPageCacheBalance.maximal_medium_for_small_assert (b : ZPageCacheBalance)
    (small : Nat) : Prop :=
  b.available_page_cache_size > small * b.ZPageSizeSmall

/-- Source: `(available_page_cache_size() - medium * ZPageSizeMedium) / ZPageSizeSmall`. -/
def ZPageCacheBalance.calculate_maximal_small_for_medium (b : ZPageCacheBalance)
    (medium : Nat) : Nat :=
  (b.available_page_cache_size - medium * b.ZPageSizeMedium) / b.ZPageSizeSmall

/-- Source: `(available_page_cache_size() - small * ZPageSizeSmall) / ZPageSizeMedium`. -/
def ZPageCacheBalance.calculate_maximal_medium_for_small (b : ZPageCacheBalance)
    (small : Nat) : Nat :=
  (b.available_page_cache_size - small * b.ZPageSizeSmall) / b.ZPageSizeMedium

/-- Source: `MAX2((size_t)(capacity * ZMinPageCachePercent / 100.0 / ZPageSizeMedium), 1UL)`,
raised to `MAX2(_medium_selected_to, result)` before relocation.  The integer
product `capacity * ZMinPageCachePercent` is divided in `double`; the cast of
the non-negative quotient is `Nat.floor`. -/
def ZPageCacheBalance.calculate_minimal_medium (b : ZPageCacheBalance) : Nat :=
  let result := max
    (Nat.floor (((b.capacity * b.ZMinPageCachePercent : Nat) : ℚ) / 100 / (b.ZPageSizeMedium : ℚ))) 1
  if b.before_relocation then max b.medium_selected_to result else result

/-- Source: `MAX2((size_t)(capacity * ZMinPageCachePercent / 100.0 / ZPageSizeSmall), 1UL)`,
raised to `MAX2(_small_selected_to, result)` before relocation. -/
def ZPageCacheBalance.calculate_minimal_small (b : ZPageCacheBalance) : Nat :=
  let result := max
    (Nat.floor (((b.capacity * b.ZMinPageCachePercent : Nat) : ℚ) / 100 / (b.ZPageSizeSmall : ℚ))) 1
  if b.before_relocation then max b.small_selected_to result else result

/-- Source: before relocation return `_available_medium`; otherwise
`predicted_medium_ratio = medium_rate / (medium_rate + small_rate + 0.1)` and
the result is `(size_t)(available_page_cache_size() * predicted_medium_ratio / ZPageSizeMedium)`. -/
def ZPageCacheBalance.calculate_optimal_medium (b : ZPageCacheBalance) : Nat :=
  if b.before_relocation then
    b.available_medium
  else
    let predicted_medium_ratio : ℚ := b.medium_rate / (b.medium_rate + b.small_rate + 1/10)
    Nat.floor ((b.available_page_cache_size : ℚ) * predicted_medium_ratio / (b.ZPageSizeMedium : ℚ))

/-- Source: before relocation return `_available_small`; otherwise
`calculate_maximal_small_for_medium(calculate_optimal_medium())`. -/
def ZPageCacheBalance.calculate_optimal_small (b : ZPageCacheBalance) : Nat :=
  if b.before_relocation then
    b.available_small
  else
    b.calculate_maximal_small_for_medium b.calculate_optimal_medium

/-- Outcome of `determine_balance_necessity`: its boolean return value and the
`_target_small`/`_target_medium` fields as left by the call (they default to
the available counts, set by `initialize_page_count`). -/
structure BalanceDecision where
  do_balance : Bool
  target_small : Nat
  target_medium : Nat
deriving DecidableEq

/-- Source: `determine_balance_necessity`.  Gate on the lower bound, compute
the optimum, project it onto the feasible region (three cases; the final
`else` is the source's `ShouldNotReachHere()`, left at the defaults), and
report no-op when `_target_medium == _available_medium`. -/
def ZPageCacheBalance.determine_balance_necessity (b : ZPageCacheBalance) : BalanceDecision :=
  let minimal_medium := b.calculate_minimal_medium
  let minimal_small := b.calculate_minimal_small
  if b.calculate_total_size minimal_small minimal_medium > b.available_page_cache_size then
    ⟨false, b.available_small, b.available_medium⟩
  else
    let optimal_medium := b.calculate_optimal_medium
    let optimal_small := b.calculate_optimal_small
    let t : Nat × Nat :=
      if optimal_medium ≥ minimal_medium ∧ optimal_small ≥ minimal_small then
        (optimal_small, optimal_medium)
      else if optimal_medium < minimal_medium then
        (b.calculate_maximal_small_for_medium minimal_medium, minimal_medium)
      else if optimal_small < minimal_small then
        let tm := b.calculate_maximal_medium_for_small minimal_small
        (b.calculate_maximal_small_for_medium tm, tm)
      else
        (b.available_small, b.available_medium)
    if t.2 = b.available_medium then ⟨false, t.1, t.2⟩ else ⟨true, t.1, t.2⟩

/-- The `_loaner_type`/`_debtor_type`/`_loaner_count`/`_debtor_count` fields. -/
structure LoanerDebtor where
  loaner_type : Nat
  debtor_type : Nat
  loaner_count : Nat
  debtor_count : Nat
deriving DecidableEq

/-- Constructor defaults for the loaner/debtor fields. -/
def LoanerDebtor.init : LoanerDebtor :=
  ⟨ZPageTypeSmall, ZPageTypeMedium, 0, 0⟩

/-- Source: `calculate_loaner_and_debtor`, reading the target fields computed
by `determine_balance_necessity`. -/
def ZPageCacheBalance.calculate_loaner_and_debtor (b : ZPageCacheBalance)
    (target_small target_medium : Nat) : LoanerDebtor :=
  if target_small > b.available_small then
    { loaner_type := ZPageTypeMedium
      debtor_type := ZPageTypeSmall
      loaner_count := b.available_medium - target_medium
      debtor_count := target_small - b.available_small }
  else if target_medium > b.available_medium then
    { loaner_type := ZPageTypeSmall
      debtor_type := ZPageTypeMedium
      loaner_count := b.available_small - target_small
      debtor_count := target_medium - b.available_medium }
  else
    LoanerDebtor.init

/-- Modelled from the spec: a `ZPage` is a heap region with a size class, a
`mapped` flag and an owned physical-memory descriptor (`physically_backed`);
its virtual range and metadata are abstracted away. -/
structure ZPage where
  page_type : Nat
  size : Nat
  mapped : Bool
  physically_backed : Bool
deriving DecidableEq

/-- Modelled from the spec: the shared state `balance()` touches — the page
cache (a multiset of pages per class), the page table, the allocator's
detached list, the physical pool (free bytes), the used-bytes counter, and
the `ZStatCycle::is_warm()` snapshot. -/
structure ZWorld where
  is_warm : Bool
  cache_small : List ZPage
  cache_medium : List ZPage
  pagetable : List ZPage
  detached : List ZPage
  free_physical : Nat
  used : Nat
deriving DecidableEq

/-- The balancer's mutable fields, `_available_*`, `_target_*`, the
loaner/debtor assignment and the two page lists. -/
structure BalancerFields where
  available_small : Nat
  available_medium : Nat
  target_small : Nat
  target_medium : Nat
  loaner_debtor : LoanerDebtor
  loaner_list : List ZPage
  debtor_list : List ZPage
deriving DecidableEq

/-- The constructor's initial field values: zero counts, loaner Small /
debtor Medium, empty lists. -/
def BalancerFields.init : BalancerFields :=
  ⟨0, 0, 0, 0, LoanerDebtor.init, [], []⟩

/-- Modelled from the spec: the cache's loan-out operation removes up to `n`
pages of the given class from the cache (selection is
implementation-defined; this model takes a front segment). -/
def ZWorld.loan_pages (w : ZWorld) (n : Nat) (page_type : Nat) :
    List ZPage × ZWorld :=
  if page_type = ZPageTypeSmall then
    (w.cache_small.take n, { w with cache_small := w.cache_small.drop n })
  else
    (w.cache_medium.take n, { w with cache_medium := w.cache_medium.drop n })

/-- Source: `initialize_page_count` samples the cache counts and defaults the
targets to them. -/
def ZPageCacheBalance.initialize_page_count (b : ZPageCacheBalance) (w : ZWorld) :
    ZPageCacheBalance :=
  { b with available_small := w.cache_small.length
           available_medium := w.cache_medium.length }

/-- Source: `need_to_balance` — return false when the GC is not warm, before
taking the allocator lock; otherwise sample the counts, run the solver and,
when it says to balance, compute the loaner/debtor assignment and loan the
loaner pages out of the cache. -/
def ZPageCacheBalance.need_to_balance (b : ZPageCacheBalance) (w : ZWorld) :
    Bool × BalancerFields × ZWorld :=
  if !w.is_warm then
    (false, BalancerFields.init, w)
  else
    let b' := b.initialize_page_count w
    let d := b'.determine_balance_necessity
    let st : BalancerFields :=
      { BalancerFields.init with
          available_small := b'.available_small
          available_medium := b'.available_medium
          target_small := d.target_small
          target_medium := d.target_medium }
    if d.do_balance then
      let ld := b'.calculate_loaner_and_debtor d.target_small d.target_medium
      let (loaned, w') := w.loan_pages ld.loaner_count ld.loaner_type
      (true, { st with loaner_debtor := ld, loaner_list := loaned }, w')
    else
      (false, st, w)

/-- Source: `unmap_pages` drops the virtual mapping of every loaner page.
The per-page effect (`ZPhysicalMemoryManager::unmap`) is modelled from the
spec: the page's `mapped` flag is cleared. -/
def unmap_pages (loaner_list : List ZPage) : List ZPage :=
  loaner_list.map fun p => { p with mapped := false }

/-- Source: `free_physical_memory` frees each loaner page's physical memory
back to the pool, clears its descriptor and appends the shell to the
allocator's detached list. -/
def free_physical_memory (loaner_list : List ZPage) (w : ZWorld) : ZWorld :=
  { w with
      free_physical := w.free_physical + (loaner_list.map ZPage.size).sum
      detached := w.detached ++ loaner_list.map fun p => { p with physically_backed := false } }

/-- Modelled from the spec: `ZPageAllocator::create_page` produces an
unmapped, physically backed page of the requested type and size. -/
def create_page (page_type size_arg : Nat) : ZPage :=
  ⟨page_type, size_arg, false, true⟩

/-- Source: `create_pages_for_debtor` creates `_debtor_count` pages of the
debtor type and size, drawing physical memory from the pool and bumping the
used counter (with `reclaimed = false`). -/
def ZPageCacheBalance.create_pages_for_debtor (b : ZPageCacheBalance)
    (ld : LoanerDebtor) (w : ZWorld) : List ZPage × ZWorld :=
  let debtor_page_size :=
    if ld.debtor_type = ZPageTypeSmall then b.ZPageSizeSmall else b.ZPageSizeMedium
  (List.replicate ld.debtor_count (create_page ld.debtor_type debtor_page_size),
   { w with
       free_physical := w.free_physical - ld.debtor_count * debtor_page_size
       used := w.used + ld.debtor_count * debtor_page_size })

/-- Source: `map_pages` maps every debtor page (each was unmapped on entry). -/
def map_pages (debtor_list : List ZPage) : List ZPage :=
  debtor_list.map fun p => { p with mapped := true }

/-- Source: `insert_pages_to_page_cache` resets each debtor page, inserts it
into the page table and releases it into the page cache. -/
def insert_pages_to_page_cache (debtor_list : List ZPage) (w : ZWorld) : ZWorld :=
  { w with
      pagetable := w.pagetable ++ debtor_list
      cache_small := w.cache_small ++ debtor_list.filter fun p => p.page_type = ZPageTypeSmall
      cache_medium := w.cache_medium ++ debtor_list.filter fun p => p.page_type = ZPageTypeMedium }

/-- Source: `balance()` — if `need_to_balance()` then `unmap()` (unmap pages,
free physical memory) and `remap()` (create debtor pages, map them, publish
them).  Returns the final balancer fields and the final shared state. -/
def ZPageCacheBalance.balance (b : ZPageCacheBalance) (w : ZWorld) :
    BalancerFields × ZWorld :=
  let r := b.need_to_balance w
  if r.1 then
    let st := r.2.1
    let w1 := r.2.2
    let unmapped := unmap_pages st.loaner_list
    let w2 := free_physical_memory unmapped w1
    let st2 := { st with loaner_list := [] }
    let created := b.create_pages_for_debtor st2.loaner_debtor w2
    let mapped := map_pages created.1
    let w3 := insert_pages_to_page_cache mapped created.2
    ({ st2 with debtor_list := [] }, w3)
  else
    (r.2.1, r.2.2)

/-! Arithmetic facts about the solver's helpers, shared by the claim
theorems below. -/

theorem one_le_minimal_medium (b : ZPageCacheBalance) : 1 ≤ b.calculate_minimal_medium := by
  simp only [ZPageCacheBalance.calculate_minimal_medium]
  split
  · exact le_trans (le_max_right _ 1) (le_max_right _ _)
  · exact le_max_right _ 1

theorem one_le_minimal_small (b : ZPageCacheBalance) : 1 ≤ b.calculate_minimal_small := by
  simp only [ZPageCacheBalance.calculate_minimal_small]
  split
  · exact le_trans (le_max_right _ 1) (le_max_right _ _)
  · exact le_max_right _ 1

theorem small_dvd_available (b : ZPageCacheBalance)
    (hdvd : b.ZPageSizeSmall ∣ b.ZPageSizeMedium) :
    b.ZPageSizeSmall ∣ b.available_page_cache_size := by
  unfold ZPageCacheBalance.available_page_cache_size ZPageCacheBalance.calculate_total_size
  exact Nat.dvd_add (Dvd.intro _ rfl) (Dvd.dvd.mul_right hdvd _)

theorem maximal_small_saturates (b : ZPageCacheBalance) (m : Nat)
    (hdvd : b.ZPageSizeSmall ∣ b.ZPageSizeMedium)
    (hle : m * b.ZPageSizeMedium ≤ b.available_page_cache_size) :
    b.calculate_total_size (b.calculate_maximal_small_for_medium m) m
      = b.available_page_cache_size := by
  unfold ZPageCacheBalance.calculate_total_size ZPageCacheBalance.calculate_maximal_small_for_medium
  have hdvd2 : b.ZPageSizeSmall ∣ (b.available_page_cache_size - m * b.ZPageSizeMedium) :=
    Nat.dvd_sub' (small_dvd_available b hdvd) (Dvd.dvd.mul_left hdvd m)
  rw [Nat.mul_div_cancel' hdvd2, mul_comm b.ZPageSizeMedium m, Nat.sub_add_cancel hle]

theorem le_maximal_small (b : ZPageCacheBalance) (x m : Nat)
    (hS : 0 < b.ZPageSizeSmall)
    (h : b.calculate_total_size x m ≤ b.available_page_cache_size) :
    x ≤ b.calculate_maximal_small_for_medium m := by
  unfold ZPageCacheBalance.calculate_maximal_small_for_medium
  rw [Nat.le_div_iff_mul_le hS]
  unfold ZPageCacheBalance.calculate_total_size at h
  apply Nat.le_sub_of_add_le
  calc x * b.ZPageSizeSmall + m * b.ZPageSizeMedium
      = b.ZPageSizeSmall * x + b.ZPageSizeMedium * m := by ring
    _ ≤ b.available_page_cache_size := h

theorem le_maximal_medium (b : ZPageCacheBalance) (x s : Nat)
    (hM : 0 < b.ZPageSizeMedium)
    (h : b.calculate_total_size s x ≤ b.available_page_cache_size) :
    x ≤ b.calculate_maximal_medium_for_small s := by
  unfold ZPageCacheBalance.calculate_maximal_medium_for_small
  rw [Nat.le_div_iff_mul_le hM]
  unfold ZPageCacheBalance.calculate_total_size at h
  apply Nat.le_sub_of_add_le
  calc x * b.ZPageSizeMedium + s * b.ZPageSizeSmall
      = b.ZPageSizeSmall * s + b.ZPageSizeMedium * x := by ring
    _ ≤ b.available_page_cache_size := h

theorem maximal_medium_mul_le (b : ZPageCacheBalance) (s : Nat) :
    b.calculate_maximal_medium_for_small s * b.ZPageSizeMedium
      ≤ b.available_page_cache_size - s * b.ZPageSizeSmall :=
  Nat.div_mul_le_self _ _

theorem ratio_nonneg (b : ZPageCacheBalance)
    (hsr : 0 ≤ b.small_rate) (hmr : 0 ≤ b.medium_rate) :
    0 ≤ b.medium_rate / (b.medium_rate + b.small_rate + 1/10) :=
  div_nonneg hmr (by linarith)

theorem ratio_lt_one (b : ZPageCacheBalance)
    (hsr : 0 ≤ b.small_rate) (hmr : 0 ≤ b.medium_rate) :
    b.medium_rate / (b.medium_rate + b.small_rate + 1/10) < 1 := by
  rw [div_lt_one (by linarith)]
  linarith

theorem optimal_medium_mul_le (b : ZPageCacheBalance)
    (hsr : 0 ≤ b.small_rate) (hmr : 0 ≤ b.medium_rate) :
    b.calculate_optimal_medium * b.ZPageSizeMedium ≤ b.available_page_cache_size := by
  unfold ZPageCacheBalance.calculate_optimal_medium
  split
  · unfold ZPageCacheBalance.available_page_cache_size ZPageCacheBalance.calculate_total_size
    rw [mul_comm]
    exact Nat.le_add_left _ _
  · rcases Nat.eq_zero_or_pos b.ZPageSizeMedium with hM | hM
    · simp [hM]
    · have hMQ : (0:ℚ) < (b.ZPageSizeMedium : ℚ) := by exact_mod_cast hM
      set r : ℚ := b.medium_rate / (b.medium_rate + b.small_rate + 1/10) with hr
      set q : ℚ := (b.available_page_cache_size : ℚ) * r / (b.ZPageSizeMedium : ℚ) with hq
      have hq0 : 0 ≤ q := by
        apply div_nonneg _ (le_of_lt hMQ)
        exact mul_nonneg (Nat.cast_nonneg _) (ratio_nonneg b hsr hmr)
      have hfl : (Nat.floor q : ℚ) ≤ q := Nat.floor_le hq0
      have key : ((Nat.floor q * b.ZPageSizeMedium : Nat) : ℚ) ≤ (b.available_page_cache_size : ℚ) := by
        push_cast
        calc (Nat.floor q : ℚ) * (b.ZPageSizeMedium : ℚ)
            ≤ q * (b.ZPageSizeMedium : ℚ) :=
              mul_le_mul_of_nonneg_right hfl (le_of_lt hMQ)
          _ = (b.available_page_cache_size : ℚ) * r := by
              rw [hq, div_mul_cancel₀ _ (ne_of_gt hMQ)]
          _ ≤ (b.available_page_cache_size : ℚ) * 1 :=
              mul_le_mul_of_nonneg_left (le_of_lt (ratio_lt_one b hsr hmr)) (Nat.cast_nonneg _)
          _ = (b.available_page_cache_size : ℚ) := mul_one _
      exact_mod_cast key

theorem optimal_medium_mul_lt (b : ZPageCacheBalance)
    (hb : b.before_relocation = false)
    (hsr : 0 ≤ b.small_rate) (hmr : 0 ≤ b.medium_rate)
    (hM : 0 < b.ZPageSizeMedium)
    (htot : 0 < b.available_page_cache_size) :
    b.calculate_optimal_medium * b.ZPageSizeMedium < b.available_page_cache_size := by
  unfold ZPageCacheBalance.calculate_optimal_medium
  rw [hb]
  simp only [Bool.false_eq_true, if_false]
  have hMQ : (0:ℚ) < (b.ZPageSizeMedium : ℚ) := by exact_mod_cast hM
  have htotQ : (0:ℚ) < (b.available_page_cache_size : ℚ) := by exact_mod_cast htot
  set r : ℚ := b.medium_rate / (b.medium_rate + b.small_rate + 1/10) with hr
  set q : ℚ := (b.available_page_cache_size : ℚ) * r / (b.ZPageSizeMedium : ℚ) with hq
  have hq0 : 0 ≤ q := by
    apply div_nonneg _ (le_of_lt hMQ)
    exact mul_nonneg (Nat.cast_nonneg _) (ratio_nonneg b hsr hmr)
  have hfl : (Nat.floor q : ℚ) ≤ q := Nat.floor_le hq0
  have key : ((Nat.floor q * b.ZPageSizeMedium : Nat) : ℚ) < (b.available_page_cache_size : ℚ) := by
    push_cast
    calc (Nat.floor q : ℚ) * (b.ZPageSizeMedium : ℚ)
        ≤ q * (b.ZPageSizeMedium : ℚ) :=
          mul_le_mul_of_nonneg_right hfl (le_of_lt hMQ)
      _ = (b.available_page_cache_size : ℚ) * r := by
          rw [hq, div_mul_cancel₀ _ (ne_of_gt hMQ)]
      _ < (b.available_page_cache_size : ℚ) * 1 :=
          (mul_lt_mul_left htotQ).mpr (ratio_lt_one b hsr hmr)
      _ = (b.available_page_cache_size : ℚ) := mul_one _
  exact_mod_cast key

theorem optimal_saturates (b : ZPageCacheBalance)
    (hdvd : b.ZPageSizeSmall ∣ b.ZPageSizeMedium)
    (hsr : 0 ≤ b.small_rate) (hmr : 0 ≤ b.medium_rate) :
    b.calculate_total_size b.calculate_optimal_small b.calculate_optimal_medium
      = b.available_page_cache_size := by
  by_cases hb : b.before_relocation
  · simp only [ZPageCacheBalance.calculate_optimal_small,
      ZPageCacheBalance.calculate_optimal_medium, hb, if_true]
    rfl
  · simp only [ZPageCacheBalance.calculate_optimal_small, hb, if_false]
    exact maximal_small_saturates b _ hdvd (optimal_medium_mul_le b hsr hmr)

theorem decision_target_small_eq (c : Prop) [Decidable c] (x y : Nat) :
    (if c then (⟨false, x, y⟩ : BalanceDecision) else ⟨true, x, y⟩).target_small = x := by
  split <;> rfl

theorem decision_target_medium_eq (c : Prop) [Decidable c] (x y : Nat) :
    (if c then (⟨false, x, y⟩ : BalanceDecision) else ⟨true, x, y⟩).target_medium = y := by
  split <;> rfl

theorem solver_infeasible (b : ZPageCacheBalance)
    (h : b.available_page_cache_size
        < b.calculate_total_size b.calculate_minimal_small b.calculate_minimal_medium) :
    b.determine_balance_necessity = ⟨false, b.available_small, b.available_medium⟩ := by
  simp only [ZPageCacheBalance.determine_balance_necessity]
  rw [if_pos h]

theorem solver_cases (b : ZPageCacheBalance)
    (hfeas : b.calculate_total_size b.calculate_minimal_small b.calculate_minimal_medium
        ≤ b.available_page_cache_size) :
    (  (b.determine_balance_necessity).target_small = b.calculate_optimal_small
     ∧ (b.determine_balance_necessity).target_medium = b.calculate_optimal_medium
     ∧ b.calculate_minimal_medium ≤ b.calculate_optimal_medium
     ∧ b.calculate_minimal_small ≤ b.calculate_optimal_small) ∨
    (  (b.determine_balance_necessity).target_small
         = b.calculate_maximal_small_for_medium b.calculate_minimal_medium
     ∧ (b.determine_balance_necessity).target_medium = b.calculate_minimal_medium
     ∧ b.calculate_optimal_medium < b.calculate_minimal_medium) ∨
    (  (b.determine_balance_necessity).target_small
         = b.calculate_maximal_small_for_medium
             (b.calculate_maximal_medium_for_small b.calculate_minimal_small)
     ∧ (b.determine_balance_necessity).target_medium
         = b.calculate_maximal_medium_for_small b.calculate_minimal_small
     ∧ b.calculate_optimal_small < b.calculate_minimal_small
     ∧ b.calculate_minimal_medium ≤ b.calculate_optimal_medium) := by
  have hgate : ¬ (b.available_page_cache_size
      < b.calculate_total_size b.calculate_minimal_small b.calculate_minimal_medium) :=
    not_lt.mpr hfeas
  simp only [ZPageCacheBalance.determine_balance_necessity]
  rw [if_neg hgate]
  by_cases h1 : b.calculate_optimal_medium ≥ b.calculate_minimal_medium
      ∧ b.calculate_optimal_small ≥ b.calculate_minimal_small
  · rw [if_pos h1]
    left
    exact ⟨decision_target_small_eq _ _ _, decision_target_medium_eq _ _ _, h1.1, h1.2⟩
  · rw [if_neg h1]
    by_cases h2 : b.calculate_optimal_medium < b.calculate_minimal_medium
    · rw [if_pos h2]
      right; left
      exact ⟨decision_target_small_eq _ _ _, decision_target_medium_eq _ _ _, h2⟩
    · rw [if_neg h2]
      have h3 : b.calculate_optimal_small < b.calculate_minimal_small := by omega
      rw [if_pos h3]
      right; right
      exact ⟨decision_target_small_eq _ _ _, decision_target_medium_eq _ _ _, h3, by omega⟩

theorem solver_preserves (b : ZPageCacheBalance)
    (hdvd : b.ZPageSizeSmall ∣ b.ZPageSizeMedium)
    (hsr : 0 ≤ b.small_rate) (hmr : 0 ≤ b.medium_rate) :
    b.calculate_total_size (b.determine_balance_necessity).target_small
        (b.determine_balance_necessity).target_medium
      = b.available_page_cache_size := by
  by_cases hfeas : b.calculate_total_size b.calculate_minimal_small b.calculate_minimal_medium
      ≤ b.available_page_cache_size
  · rcases solver_cases b hfeas with ⟨hs, hm, _, _⟩ | ⟨hs, hm, _⟩ | ⟨hs, hm, _, _⟩
    · rw [hs, hm]
      exact optimal_saturates b hdvd hsr hmr
    · rw [hs, hm]
      apply maximal_small_saturates b _ hdvd
      calc b.calculate_minimal_medium * b.ZPageSizeMedium
          ≤ b.ZPageSizeSmall * b.calculate_minimal_small
            + b.ZPageSizeMedium * b.calculate_minimal_medium := by
            rw [mul_comm]; exact Nat.le_add_left _ _
        _ ≤ b.available_page_cache_size := hfeas
    · rw [hs, hm]
      apply maximal_small_saturates b _ hdvd
      exact le_trans (maximal_medium_mul_le b _) (Nat.sub_le _ _)
  · rw [solver_infeasible b (not_le.mp hfeas)]
    rfl

theorem solver_floors (b : ZPageCacheBalance)
    (hS : 0 < b.ZPageSizeSmall) (hM : 0 < b.ZPageSizeMedium)
    (hfeas : b.calculate_total_size b.calculate_minimal_small b.calculate_minimal_medium
        ≤ b.available_page_cache_size) :
    b.calculate_minimal_small ≤ (b.determine_balance_necessity).target_small
      ∧ b.calculate_minimal_medium ≤ (b.determine_balance_necessity).target_medium := by
  rcases solver_cases b hfeas with ⟨hs, hm, hom, hos⟩ | ⟨hs, hm, _⟩ | ⟨hs, hm, _, _⟩
  · rw [hs, hm]
    exact ⟨hos, hom⟩
  · rw [hs, hm]
    exact ⟨le_maximal_small b _ _ hS hfeas, le_refl _⟩
  · rw [hs, hm]
    constructor
    · apply le_maximal_small b _ _ hS
      unfold ZPageCacheBalance.calculate_total_size
      have h1 : b.ZPageSizeSmall * b.calculate_minimal_small ≤ b.available_page_cache_size := by
        calc b.ZPageSizeSmall * b.calculate_minimal_small
            ≤ b.ZPageSizeSmall * b.calculate_minimal_small
              + b.ZPageSizeMedium * b.calculate_minimal_medium := Nat.le_add_right _ _
          _ ≤ b.available_page_cache_size := hfeas
      have h2 : b.calculate_maximal_medium_for_small b.calculate_minimal_small
          * b.ZPageSizeMedium
          ≤ b.available_page_cache_size - b.calculate_minimal_small * b.ZPageSizeSmall :=
        maximal_medium_mul_le b _
      have h3 : b.calculate_maximal_medium_for_small b.calculate_minimal_small
            * b.ZPageSizeMedium + b.calculate_minimal_small * b.ZPageSizeSmall
          ≤ b.available_page_cache_size :=
        Nat.add_le_of_le_sub (by rw [mul_comm]; exact h1) h2
      calc b.ZPageSizeSmall * b.calculate_minimal_small
            + b.ZPageSizeMedium * b.calculate_maximal_medium_for_small b.calculate_minimal_small
          = b.calculate_maximal_medium_for_small b.calculate_minimal_small * b.ZPageSizeMedium
            + b.calculate_minimal_small * b.ZPageSizeSmall := by ring
        _ ≤ b.available_page_cache_size := h3
    · exact le_maximal_medium b _ _ hM hfeas

/-! The claim theorems.  `witness_input` is a small concrete solver input
used to instantiate the hypothesised theorems: 2-byte small pages, 4-byte
medium pages, a zero reservation percentage (so both floors clamp to 1),
zero allocation rates, and a cache of 5 small and 1 medium page. -/

def witness_input : ZPageCacheBalance :=
  { ZPageSizeSmall := 2
    ZPageSizeMedium := 4
    capacity := 0
    ZMinPageCachePercent := 0
    small_rate := 0
    medium_rate := 0
    before_relocation := false
    small_selected_to := 0
    medium_selected_to := 0
    available_small := 5
    available_medium := 1 }

theorem witness_minimal_small : witness_input.calculate_minimal_small = 1 := by
  norm_num [ZPageCacheBalance.calculate_minimal_small, witness_input]

theorem witness_minimal_medium : witness_input.calculate_minimal_medium = 1 := by
  norm_num [ZPageCacheBalance.calculate_minimal_medium, witness_input]

theorem witness_feasible :
    witness_input.calculate_total_size witness_input.calculate_minimal_small
        witness_input.calculate_minimal_medium
      ≤ witness_input.calculate_total_size witness_input.available_small
        witness_input.available_medium := by
  rw [witness_minimal_small, witness_minimal_medium]
  norm_num [ZPageCacheBalance.calculate_total_size, witness_input]

/-- C1 — Capacity preservation: for every solver input whose reservation
floor fits into the available page-cache size, with non-negative allocation
rates and `ZPageSizeMedium` an integer multiple of `ZPageSizeSmall`, the
targets computed by `determine_balance_necessity` satisfy
`ZPageSizeSmall * target_small + ZPageSizeMedium * target_medium ==
ZPageSizeSmall * available_small + ZPageSizeMedium * available_medium`,
covering all three projection cases. -/
theorem solver_preserves_capacity (b : ZPageCacheBalance)
    (hdvd : b.ZPageSizeSmall ∣ b.ZPageSizeMedium)
    (hsr : 0 ≤ b.small_rate) (hmr : 0 ≤ b.medium_rate)
    (_hfeas : b.calculate_total_size b.calculate_minimal_small b.calculate_minimal_medium
        ≤ b.calculate_total_size b.available_small b.available_medium) :
    b.calculate_total_size (b.determine_balance_necessity).target_small
        (b.determine_balance_necessity).target_medium
      = b.calculate_total_size b.available_small b.available_medium :=
  solver_preserves b hdvd hsr hmr

theorem solver_preserves_capacity_witness :
    witness_input.calculate_total_size
        (witness_input.determine_balance_necessity).target_small
        (witness_input.determine_balance_necessity).target_medium
      = witness_input.calculate_total_size witness_input.available_small
        witness_input.available_medium :=
  solver_preserves_capacity witness_input (by norm_num [witness_input])
    (by norm_num [witness_input]) (by norm_num [witness_input]) witness_feasible

/-- C2 — Reservation floor honoured: under the feasibility precondition
(with positive page sizes) the targets satisfy `target_small ≥ minimal_small`
and `target_medium ≥ minimal_medium`; these are exactly the three `guarantee`
lower-bound checks inside the projection case split, so none of them fails. -/
theorem solver_honours_floor (b : ZPageCacheBalance)
    (hS : 0 < b.ZPageSizeSmall) (hM : 0 < b.ZPageSizeMedium)
    (hfeas : b.calculate_total_size b.calculate_minimal_small b.calculate_minimal_medium
        ≤ b.calculate_total_size b.available_small b.available_medium) :
    b.calculate_minimal_small ≤ (b.determine_balance_necessity).target_small
      ∧ b.calculate_minimal_medium ≤ (b.determine_balance_necessity).target_medium :=
  solver_floors b hS hM hfeas

theorem solver_honours_floor_witness :
    witness_input.calculate_minimal_small
        ≤ (witness_input.determine_balance_necessity).target_small
      ∧ witness_input.calculate_minimal_medium
        ≤ (witness_input.determine_balance_necessity).target_medium :=
  solver_honours_floor witness_input (by norm_num [witness_input])
    (by norm_num [witness_input]) witness_feasible

theorem decision_do_iff (c : Prop) [Decidable c] (x y a : Nat) (hc : c ↔ y = a) :
    ((if c then (⟨false, x, y⟩ : BalanceDecision) else ⟨true, x, y⟩).do_balance = false
      ↔ (if c then (⟨false, x, y⟩ : BalanceDecision) else ⟨true, x, y⟩).target_medium = a) := by
  split_ifs with h
  · exact iff_of_true rfl (hc.mp h)
  · exact iff_of_false (by simp) fun he => h (hc.mpr he)

theorem solver_do_iff (b : ZPageCacheBalance)
    (hfeas : b.calculate_total_size b.calculate_minimal_small b.calculate_minimal_medium
        ≤ b.available_page_cache_size) :
    ((b.determine_balance_necessity).do_balance = false
      ↔ (b.determine_balance_necessity).target_medium = b.available_medium) := by
  have hgate : ¬ (b.available_page_cache_size
      < b.calculate_total_size b.calculate_minimal_small b.calculate_minimal_medium) :=
    not_lt.mpr hfeas
  simp only [ZPageCacheBalance.determine_balance_necessity]
  rw [if_neg hgate]
  exact decision_do_iff _ _ _ _ Iff.rfl

/-- C3 — No-op conditions: `determine_balance_necessity` reports no balance
exactly when the reservation floor exceeds the available page-cache size or
the computed medium target equals the available medium count; and by
capacity preservation the medium target equals the available medium count
exactly when the small target equals the available small count, so testing
the medium count alone tests for no net movement. -/
theorem solver_noop_iff (b : ZPageCacheBalance)
    (hS : 0 < b.ZPageSizeSmall) (hM : 0 < b.ZPageSizeMedium)
    (hdvd : b.ZPageSizeSmall ∣ b.ZPageSizeMedium)
    (hsr : 0 ≤ b.small_rate) (hmr : 0 ≤ b.medium_rate) :
    ((b.determine_balance_necessity).do_balance = false
      ↔ (b.calculate_total_size b.calculate_minimal_small b.calculate_minimal_medium
           > b.calculate_total_size b.available_small b.available_medium
         ∨ (b.determine_balance_necessity).target_medium = b.available_medium))
    ∧ ((b.determine_balance_necessity).target_medium = b.available_medium
      ↔ (b.determine_balance_necessity).target_small = b.available_small) := by
  by_cases hfeas : b.calculate_total_size b.calculate_minimal_small b.calculate_minimal_medium
      ≤ b.available_page_cache_size
  · have hdo := solver_do_iff b hfeas
    have hpres := solver_preserves b hdvd hsr hmr
    unfold ZPageCacheBalance.available_page_cache_size
        ZPageCacheBalance.calculate_total_size at hpres
    constructor
    · rw [hdo]
      constructor
      · exact fun h => Or.inr h
      · rintro (h | h)
        · exact absurd h (not_lt.mpr hfeas)
        · exact h
    · constructor
      · intro h
        rw [h] at hpres
        have e1 : b.ZPageSizeSmall * (b.determine_balance_necessity).target_small
            = b.ZPageSizeSmall * b.available_small := Nat.add_right_cancel hpres
        exact Nat.eq_of_mul_eq_mul_left hS e1
      · intro h
        rw [h] at hpres
        have e2 : b.ZPageSizeMedium * (b.determine_balance_necessity).target_medium
            = b.ZPageSizeMedium * b.available_medium := Nat.add_left_cancel hpres
        exact Nat.eq_of_mul_eq_mul_left hM e2
  · rw [solver_infeasible b (not_le.mp hfeas)]
    exact ⟨iff_of_true rfl (Or.inr rfl), iff_of_true rfl rfl⟩

theorem solver_noop_iff_witness :
    ((witness_input.determine_balance_necessity).do_balance = false
      ↔ (witness_input.calculate_total_size witness_input.calculate_minimal_small
           witness_input.calculate_minimal_medium
           > witness_input.calculate_total_size witness_input.available_small
             witness_input.available_medium
         ∨ (witness_input.determine_balance_necessity).target_medium
             = witness_input.available_medium))
    ∧ ((witness_input.determine_balance_necessity).target_medium
          = witness_input.available_medium
      ↔ (witness_input.determine_balance_necessity).target_small
          = witness_input.available_small) :=
  solver_noop_iff witness_input (by norm_num [witness_input])
    (by norm_num [witness_input]) (by norm_num [witness_input])
    (by norm_num [witness_input]) (by norm_num [witness_input])

/-- C6 — Exactly one class grows, and the loaner/debtor assignment matches:
the small and medium targets can never both exceed their available counts
(by capacity preservation); either one of them exceeds its available count
or the targets equal the available counts; and when the small target grows
the debtor is Small with count `target_small - available_small` while the
loaner is Medium with count `available_medium - target_medium`, and
symmetrically when the medium target grows. -/
theorem exactly_one_class_grows (b : ZPageCacheBalance)
    (hS : 0 < b.ZPageSizeSmall) (hM : 0 < b.ZPageSizeMedium)
    (hdvd : b.ZPageSizeSmall ∣ b.ZPageSizeMedium)
    (hsr : 0 ≤ b.small_rate) (hmr : 0 ≤ b.medium_rate) :
    (¬ (b.available_small < (b.determine_balance_necessity).target_small
        ∧ b.available_medium < (b.determine_balance_necessity).target_medium))
    ∧ (b.available_small < (b.determine_balance_necessity).target_small
       ∨ b.available_medium < (b.determine_balance_necessity).target_medium
       ∨ ((b.determine_balance_necessity).target_small = b.available_small
          ∧ (b.determine_balance_necessity).target_medium = b.available_medium))
    ∧ (b.available_small < (b.determine_balance_necessity).target_small →
        b.calculate_loaner_and_debtor (b.determine_balance_necessity).target_small
            (b.determine_balance_necessity).target_medium
          = ⟨ZPageTypeMedium, ZPageTypeSmall,
             b.available_medium - (b.determine_balance_necessity).target_medium,
             (b.determine_balance_necessity).target_small - b.available_small⟩)
    ∧ (b.available_medium < (b.determine_balance_necessity).target_medium →
        b.calculate_loaner_and_debtor (b.determine_balance_necessity).target_small
            (b.determine_balance_necessity).target_medium
          = ⟨ZPageTypeSmall, ZPageTypeMedium,
             b.available_small - (b.determine_balance_necessity).target_small,
             (b.determine_balance_necessity).target_medium - b.available_medium⟩) := by
  have hpres := solver_preserves b hdvd hsr hmr
  unfold ZPageCacheBalance.available_page_cache_size
      ZPageCacheBalance.calculate_total_size at hpres
  have hnotboth : ¬ (b.available_small < (b.determine_balance_necessity).target_small
      ∧ b.available_medium < (b.determine_balance_necessity).target_medium) := by
    rintro ⟨h1, h2⟩
    have e1 : b.ZPageSizeSmall * b.available_small
        < b.ZPageSizeSmall * (b.determine_balance_necessity).target_small :=
      mul_lt_mul_of_pos_left h1 hS
    have e2 : b.ZPageSizeMedium * b.available_medium
        < b.ZPageSizeMedium * (b.determine_balance_necessity).target_medium :=
      mul_lt_mul_of_pos_left h2 hM
    linarith
  refine ⟨hnotboth, ?_, ?_, ?_⟩
  · by_cases hts : b.available_small < (b.determine_balance_necessity).target_small
    · exact Or.inl hts
    · by_cases htm : b.available_medium < (b.determine_balance_necessity).target_medium
      · exact Or.inr (Or.inl htm)
      · refine Or.inr (Or.inr ?_)
        have hts' : (b.determine_balance_necessity).target_small ≤ b.available_small :=
          not_lt.mp hts
        have htm' : (b.determine_balance_necessity).target_medium ≤ b.available_medium :=
          not_lt.mp htm
        have e1 : b.ZPageSizeSmall * (b.determine_balance_necessity).target_small
            ≤ b.ZPageSizeSmall * b.available_small := mul_le_mul_left' hts' _
        have e2 : b.ZPageSizeMedium * (b.determine_balance_necessity).target_medium
            ≤ b.ZPageSizeMedium * b.available_medium := mul_le_mul_left' htm' _
        have f1 : b.ZPageSizeSmall * (b.determine_balance_necessity).target_small
            = b.ZPageSizeSmall * b.available_small := by linarith
        have f2 : b.ZPageSizeMedium * (b.determine_balance_necessity).target_medium
            = b.ZPageSizeMedium * b.available_medium := by linarith
        exact ⟨Nat.eq_of_mul_eq_mul_left hS f1, Nat.eq_of_mul_eq_mul_left hM f2⟩
  · intro h
    unfold ZPageCacheBalance.calculate_loaner_and_debtor
    rw [if_pos h]
  · intro h
    have hns : ¬ (b.available_small < (b.determine_balance_necessity).target_small) :=
      fun hc => hnotboth ⟨hc, h⟩
    unfold ZPageCacheBalance.calculate_loaner_and_debtor
    rw [if_neg hns, if_pos h]

theorem exactly_one_class_grows_witness :
    (¬ (witness_input.available_small
          < (witness_input.determine_balance_necessity).target_small
        ∧ witness_input.available_medium
          < (witness_input.determine_balance_necessity).target_medium))
    ∧ (witness_input.available_small
         < (witness_input.determine_balance_necessity).target_small
       ∨ witness_input.available_medium
         < (witness_input.determine_balance_necessity).target_medium
       ∨ ((witness_input.determine_balance_necessity).target_small
            = witness_input.available_small
          ∧ (witness_input.determine_balance_necessity).target_medium
            = witness_input.available_medium))
    ∧ (witness_input.available_small
         < (witness_input.determine_balance_necessity).target_small →
        witness_input.calculate_loaner_and_debtor
            (witness_input.determine_balance_necessity).target_small
            (witness_input.determine_balance_necessity).target_medium
          = ⟨ZPageTypeMedium, ZPageTypeSmall,
             witness_input.available_medium
               - (witness_input.determine_balance_necessity).target_medium,
             (witness_input.determine_balance_necessity).target_small
               - witness_input.available_small⟩)
    ∧ (witness_input.available_medium
         < (witness_input.determine_balance_necessity).target_medium →
        witness_input.calculate_loaner_and_debtor
            (witness_input.determine_balance_necessity).target_small
            (witness_input.determine_balance_necessity).target_medium
          = ⟨ZPageTypeSmall, ZPageTypeMedium,
             witness_input.available_small
               - (witness_input.determine_balance_necessity).target_small,
             (witness_input.determine_balance_necessity).target_medium
               - witness_input.available_medium⟩) :=
  exactly_one_class_grows witness_input (by norm_num [witness_input])
    (by norm_num [witness_input]) (by norm_num [witness_input])
    (by norm_num [witness_input]) (by norm_num [witness_input])

theorem minimal_small_closed (b : ZPageCacheBalance) :
    b.calculate_minimal_small =
      if b.before_relocation then
        max b.small_selected_to
          (max (b.capacity * b.ZMinPageCachePercent / 100 / b.ZPageSizeSmall) 1)
      else
        max (b.capacity * b.ZMinPageCachePercent / 100 / b.ZPageSizeSmall) 1 := by
  have h : Nat.floor (((b.capacity * b.ZMinPageCachePercent : Nat) : ℚ) / 100 / (b.ZPageSizeSmall : ℚ))
      = b.capacity * b.ZMinPageCachePercent / 100 / b.ZPageSizeSmall := by
    rw [show (100 : ℚ) = ((100 : ℕ) : ℚ) by norm_num, Nat.floor_div_nat, Nat.floor_div_nat,
      Nat.floor_natCast]
  simp only [ZPageCacheBalance.calculate_minimal_small, h]

theorem minimal_medium_closed (b : ZPageCacheBalance) :
    b.calculate_minimal_medium =
      if b.before_relocation then
        max b.medium_selected_to
          (max (b.capacity * b.ZMinPageCachePercent / 100 / b.ZPageSizeMedium) 1)
      else
        max (b.capacity * b.ZMinPageCachePercent / 100 / b.ZPageSizeMedium) 1 := by
  have h : Nat.floor (((b.capacity * b.ZMinPageCachePercent : Nat) : ℚ) / 100 / (b.ZPageSizeMedium : ℚ))
      = b.capacity * b.ZMinPageCachePercent / 100 / b.ZPageSizeMedium := by
    rw [show (100 : ℚ) = ((100 : ℕ) : ℚ) by norm_num, Nat.floor_div_nat, Nat.floor_div_nat,
      Nat.floor_natCast]
  simp only [ZPageCacheBalance.calculate_minimal_medium, h]

/-- C4 — Before-relocation behaviour: with the phase flag set,
`calculate_optimal_medium` returns the available medium count and
`calculate_optimal_small` the available small count (no rate-matching), and
the reservation floors are at least the selected-to counts in addition to
the `max(1, floor(capacity * ZMinPageCachePercent / 100 / size))` rule (the
floor of the same input with the phase flag cleared). -/
theorem before_relocation_solver_behaviour (b : ZPageCacheBalance)
    (hb : b.before_relocation = true) :
    b.calculate_optimal_medium = b.available_medium
    ∧ b.calculate_optimal_small = b.available_small
    ∧ b.small_selected_to ≤ b.calculate_minimal_small
    ∧ b.medium_selected_to ≤ b.calculate_minimal_medium
    ∧ ({ b with before_relocation := false } : ZPageCacheBalance).calculate_minimal_small
        ≤ b.calculate_minimal_small
    ∧ ({ b with before_relocation := false } : ZPageCacheBalance).calculate_minimal_medium
        ≤ b.calculate_minimal_medium := by
  refine ⟨?_, ?_, ?_, ?_, ?_, ?_⟩
  · simp [ZPageCacheBalance.calculate_optimal_medium, hb]
  · simp [ZPageCacheBalance.calculate_optimal_small, hb]
  · simp only [ZPageCacheBalance.calculate_minimal_small, hb, if_true]
    exact le_max_left _ _
  · simp only [ZPageCacheBalance.calculate_minimal_medium, hb, if_true]
    exact le_max_left _ _
  · simp only [ZPageCacheBalance.calculate_minimal_small, hb, if_true, if_false]
    exact le_max_right _ _
  · simp only [ZPageCacheBalance.calculate_minimal_medium, hb, if_true, if_false]
    exact le_max_right _ _

def witness_before : ZPageCacheBalance :=
  { witness_input with before_relocation := true, small_selected_to := 3, medium_selected_to := 2 }

theorem before_relocation_solver_behaviour_witness :
    witness_before.calculate_optimal_medium = witness_before.available_medium
    ∧ witness_before.calculate_optimal_small = witness_before.available_small
    ∧ witness_before.small_selected_to ≤ witness_before.calculate_minimal_small
    ∧ witness_before.medium_selected_to ≤ witness_before.calculate_minimal_medium
    ∧ ({ witness_before with before_relocation := false } : ZPageCacheBalance).calculate_minimal_small
        ≤ witness_before.calculate_minimal_small
    ∧ ({ witness_before with before_relocation := false } : ZPageCacheBalance).calculate_minimal_medium
        ≤ witness_before.calculate_minimal_medium :=
  before_relocation_solver_behaviour witness_before rfl

/-- C5 — After-relocation optimal pair saturates exactly: with the phase
flag cleared, `calculate_optimal_medium` is the floor of
`available_total * ratio / ZPageSizeMedium` with
`ratio = medium_rate / (medium_rate + small_rate + 0.1)`,
`calculate_optimal_small` is the floor of the remaining bytes divided by
`ZPageSizeSmall`, and for all non-negative rates the pair exactly saturates
the available page-cache size (so the `guarantee` after computing the
optimum never fails). -/
theorem optimal_pair_saturates (b : ZPageCacheBalance)
    (hb : b.before_relocation = false)
    (hdvd : b.ZPageSizeSmall ∣ b.ZPageSizeMedium)
    (hsr : 0 ≤ b.small_rate) (hmr : 0 ≤ b.medium_rate) :
    b.calculate_optimal_medium
      = Nat.floor ((b.calculate_total_size b.available_small b.available_medium : ℚ)
          * (b.medium_rate / (b.medium_rate + b.small_rate + 1/10)) / (b.ZPageSizeMedium : ℚ))
    ∧ b.calculate_optimal_small
      = (b.calculate_total_size b.available_small b.available_medium
          - b.ZPageSizeMedium * b.calculate_optimal_medium) / b.ZPageSizeSmall
    ∧ b.calculate_total_size b.calculate_optimal_small b.calculate_optimal_medium
      = b.calculate_total_size b.available_small b.available_medium := by
  refine ⟨?_, ?_, ?_⟩
  · simp only [ZPageCacheBalance.calculate_optimal_medium, hb, Bool.false_eq_true, if_false]
    rfl
  · simp only [ZPageCacheBalance.calculate_optimal_small, hb, Bool.false_eq_true, if_false,
      ZPageCacheBalance.calculate_maximal_small_for_medium]
    rw [mul_comm]
    rfl
  · exact optimal_saturates b hdvd hsr hmr

theorem optimal_pair_saturates_witness :
    witness_input.calculate_optimal_medium
      = Nat.floor ((witness_input.calculate_total_size witness_input.available_small
            witness_input.available_medium : ℚ)
          * (witness_input.medium_rate
              / (witness_input.medium_rate + witness_input.small_rate + 1/10))
          / (witness_input.ZPageSizeMedium : ℚ))
    ∧ witness_input.calculate_optimal_small
      = (witness_input.calculate_total_size witness_input.available_small
            witness_input.available_medium
          - witness_input.ZPageSizeMedium * witness_input.calculate_optimal_medium)
          / witness_input.ZPageSizeSmall
    ∧ witness_input.calculate_total_size witness_input.calculate_optimal_small
          witness_input.calculate_optimal_medium
      = witness_input.calculate_total_size witness_input.available_small
          witness_input.available_medium :=
  optimal_pair_saturates witness_input rfl (by norm_num [witness_input])
    (by norm_num [witness_input]) (by norm_num [witness_input])

/-- C9 — Helper preconditions always satisfied on solver paths: under the
feasibility precondition (with positive page sizes and non-negative rates)
the strict assertions of `calculate_maximal_small_for_medium` and
`calculate_maximal_medium_for_small` hold at every argument those helpers
receive from `determine_balance_necessity` and `calculate_optimal_small`:
the minimal medium count, the minimal small count, the maximal medium count
for the minimal small count, and (after relocation) the optimal medium
count. -/
theorem helper_asserts_hold (b : ZPageCacheBalance)
    (hS : 0 < b.ZPageSizeSmall) (hM : 0 < b.ZPageSizeMedium)
    (hsr : 0 ≤ b.small_rate) (hmr : 0 ≤ b.medium_rate)
    (hfeas : b.calculate_total_size b.calculate_minimal_small b.calculate_minimal_medium
        ≤ b.calculate_total_size b.available_small b.available_medium) :
    b.maximal_small_for_medium_assert b.calculate_minimal_medium
    ∧ b.maximal_medium_for_small_assert b.calculate_minimal_small
    ∧ b.maximal_small_for_medium_assert
        (b.calculate_maximal_medium_for_small b.calculate_minimal_small)
    ∧ (b.before_relocation = false →
        b.maximal_small_for_medium_assert b.calculate_optimal_medium) := by
  have hms1 : 1 ≤ b.calculate_minimal_small := one_le_minimal_small b
  have hmm1 : 1 ≤ b.calculate_minimal_medium := one_le_minimal_medium b
  have hfeas' : b.ZPageSizeSmall * b.calculate_minimal_small
      + b.ZPageSizeMedium * b.calculate_minimal_medium ≤ b.available_page_cache_size := hfeas
  have hSpos : 0 < b.ZPageSizeSmall * b.calculate_minimal_small :=
    Nat.mul_pos hS hms1
  have hMpos : 0 < b.ZPageSizeMedium * b.calculate_minimal_medium :=
    Nat.mul_pos hM hmm1
  have hApos : 0 < b.available_page_cache_size :=
    lt_of_lt_of_le (Nat.add_pos_left hSpos _) hfeas'
  refine ⟨?_, ?_, ?_, ?_⟩
  · unfold ZPageCacheBalance.maximal_small_for_medium_assert
    calc b.calculate_minimal_medium * b.ZPageSizeMedium
        = b.ZPageSizeMedium * b.calculate_minimal_medium := mul_comm _ _
      _ < b.ZPageSizeSmall * b.calculate_minimal_small
          + b.ZPageSizeMedium * b.calculate_minimal_medium := Nat.lt_add_of_pos_left hSpos
      _ ≤ b.available_page_cache_size := hfeas'
  · unfold ZPageCacheBalance.maximal_medium_for_small_assert
    calc b.calculate_minimal_small * b.ZPageSizeSmall
        = b.ZPageSizeSmall * b.calculate_minimal_small := mul_comm _ _
      _ < b.ZPageSizeSmall * b.calculate_minimal_small
          + b.ZPageSizeMedium * b.calculate_minimal_medium := Nat.lt_add_of_pos_right hMpos
      _ ≤ b.available_page_cache_size := hfeas'
  · unfold ZPageCacheBalance.maximal_small_for_medium_assert
    have h1 : b.calculate_maximal_medium_for_small b.calculate_minimal_small
        * b.ZPageSizeMedium
        ≤ b.available_page_cache_size - b.calculate_minimal_small * b.ZPageSizeSmall :=
      maximal_medium_mul_le b _
    have h2 : 0 < b.calculate_minimal_small * b.ZPageSizeSmall := Nat.mul_pos hms1 hS
    exact lt_of_le_of_lt h1 (Nat.sub_lt hApos h2)
  · intro hb
    unfold ZPageCacheBalance.maximal_small_for_medium_assert
    exact optimal_medium_mul_lt b hb hsr hmr hM hApos

theorem helper_asserts_hold_witness :
    witness_input.maximal_small_for_medium_assert witness_input.calculate_minimal_medium
    ∧ witness_input.maximal_medium_for_small_assert witness_input.calculate_minimal_small
    ∧ witness_input.maximal_small_for_medium_assert
        (witness_input.calculate_maximal_medium_for_small witness_input.calculate_minimal_small)
    ∧ (witness_input.before_relocation = false →
        witness_input.maximal_small_for_medium_assert witness_input.calculate_optimal_medium) :=
  helper_asserts_hold witness_input (by norm_num [witness_input])
    (by norm_num [witness_input]) (by norm_num [witness_input])
    (by norm_num [witness_input]) witness_feasible

/-- C10 — Tiny caches never balance: both minimal counts are clamped to at
least one page, so a cache whose total byte size is below
`ZPageSizeSmall + ZPageSizeMedium` always fails the feasibility gate:
`determine_balance_necessity` returns false with the targets left at the
available counts, whatever `ZMinPageCachePercent` is. -/
theorem tiny_cache_never_balances (b : ZPageCacheBalance)
    (h : b.calculate_total_size b.available_small b.available_medium
        < b.ZPageSizeSmall + b.ZPageSizeMedium) :
    b.determine_balance_necessity = ⟨false, b.available_small, b.available_medium⟩ := by
  apply solver_infeasible
  have hms1 : 1 ≤ b.calculate_minimal_small := one_le_minimal_small b
  have hmm1 : 1 ≤ b.calculate_minimal_medium := one_le_minimal_medium b
  calc b.available_page_cache_size
      < b.ZPageSizeSmall + b.ZPageSizeMedium := h
    _ ≤ b.ZPageSizeSmall * b.calculate_minimal_small
        + b.ZPageSizeMedium * b.calculate_minimal_medium :=
        Nat.add_le_add (le_mul_of_one_le_right (Nat.zero_le _) hms1)
          (le_mul_of_one_le_right (Nat.zero_le _) hmm1)
    _ = b.calculate_total_size b.calculate_minimal_small b.calculate_minimal_medium := rfl

def witness_tiny : ZPageCacheBalance :=
  { witness_input with available_small := 2, available_medium := 0 }

theorem tiny_cache_never_balances_witness :
    witness_tiny.determine_balance_necessity
      = ⟨false, witness_tiny.available_small, witness_tiny.available_medium⟩ :=
  tiny_cache_never_balances witness_tiny
    (by norm_num [witness_tiny, witness_input, ZPageCacheBalance.calculate_total_size])

/-- C8 — Cold-cycle no-op: when `ZStatCycle::is_warm()` is false,
`balance()` returns from `need_to_balance` before taking the allocator
lock: no page is loaned, unmapped, freed, created, mapped or published, and
the page cache, page table, detached list and the balancer's
target/loaner/debtor fields are all unchanged, however imbalanced the cache
is. -/
theorem cold_cycle_noop (b : ZPageCacheBalance) (w : ZWorld)
    (h : w.is_warm = false) :
    b.balance w = (BalancerFields.init, w) := by
  unfold ZPageCacheBalance.balance ZPageCacheBalance.need_to_balance
  rw [h]
  simp

def witness_cold_world : ZWorld :=
  { is_warm := false
    cache_small := [⟨ZPageTypeSmall, 2, true, true⟩, ⟨ZPageTypeSmall, 2, true, true⟩]
    cache_medium := []
    pagetable := []
    detached := []
    free_physical := 0
    used := 0 }

theorem cold_cycle_noop_witness :
    witness_input.balance witness_cold_world = (BalancerFields.init, witness_cold_world) :=
  cold_cycle_noop witness_input witness_cold_world rfl

/-- End-to-end scenario input: 2 MiB small pages, 32 MiB medium pages, a
cache of 8640 small and 0 medium pages (17280 MiB), after relocation,
`ZMinPageCachePercent = 10` of a 16000 MiB heap (so the floors are 800 small
and 50 medium pages), and allocation rates of 200 MiB/s (small) and
1 MiB/s (medium). -/
def scenario_rate_driven : ZPageCacheBalance :=
  { ZPageSizeSmall := 2097152
    ZPageSizeMedium := 33554432
    capacity := 16777216000
    ZMinPageCachePercent := 10
    small_rate := 209715200
    medium_rate := 1048576
    before_relocation := false
    small_selected_to := 0
    medium_selected_to := 0
    available_small := 8640
    available_medium := 0 }

theorem scenario_minimal_small : scenario_rate_driven.calculate_minimal_small = 800 := by
  rw [minimal_small_closed]
  norm_num [scenario_rate_driven]

theorem scenario_minimal_medium : scenario_rate_driven.calculate_minimal_medium = 50 := by
  rw [minimal_medium_closed]
  norm_num [scenario_rate_driven]

theorem scenario_optimal_medium : scenario_rate_driven.calculate_optimal_medium = 2 := by
  simp only [ZPageCacheBalance.calculate_optimal_medium,
    ZPageCacheBalance.available_page_cache_size, ZPageCacheBalance.calculate_total_size,
    scenario_rate_driven]
  norm_num
  rw [Nat.floor_eq_iff (by positivity)]
  norm_num

theorem scenario_optimal_small : scenario_rate_driven.calculate_optimal_small = 8608 := by
  have hb : scenario_rate_driven.before_relocation = false := rfl
  simp only [ZPageCacheBalance.calculate_optimal_small, hb, Bool.false_eq_true, if_false,
    scenario_optimal_medium]
  norm_num [ZPageCacheBalance.calculate_maximal_small_for_medium,
    ZPageCacheBalance.available_page_cache_size, ZPageCacheBalance.calculate_total_size,
    scenario_rate_driven]

theorem scenario_determine :
    scenario_rate_driven.determine_balance_necessity = ⟨true, 7840, 50⟩ := by
  simp only [ZPageCacheBalance.determine_balance_necessity, scenario_minimal_small,
    scenario_minimal_medium, scenario_optimal_medium, scenario_optimal_small]
  norm_num [ZPageCacheBalance.calculate_total_size, ZPageCacheBalance.available_page_cache_size,
    ZPageCacheBalance.calculate_maximal_small_for_medium, scenario_rate_driven]

/-- C7 — End-to-end solver scenario, rate-driven shrink of small: with
2 MiB small and 32 MiB medium pages, 8640 small and 0 medium pages
available, after relocation, reservation floors of 800 small and 50 medium
pages, and allocation rates of 200 MiB/s (small) and 1 MiB/s (medium), the
solver returns targets (7840, 50) and do-balance is true: the rate-optimal
medium count falls below the floor, so the medium target is raised to 50
and the small target recomputed to (17280 MiB - 50 * 32 MiB) / 2 MiB = 7840. -/
theorem rate_driven_shrink_scenario :
    scenario_rate_driven.calculate_minimal_small = 800
    ∧ scenario_rate_driven.calculate_minimal_medium = 50
    ∧ scenario_rate_driven.determine_balance_necessity = ⟨true, 7840, 50⟩ :=
  ⟨scenario_minimal_small, scenario_minimal_medium, scenario_determine⟩
